import Mathlib

/-!
Shallow embedding of the STM32G0 serial (USART/LPUART) HAL driver
`src/serial.rs`:  configuration data model, baud-rate divisor arithmetic,
register-write traces of the constructor, the non-blocking read/write
state machine over the ISR status flags, the blocking string writer, and
the DMA binding and transfer-start protocol.

Machine integers are modelled as `Nat` with explicit `% 2 ^ w` where the
source truncates (`as u32`, `as u8`).  Memory-mapped register writes are
modelled as explicit state transitions (for ISR/ICR/TDR/RDR) or as event
traces (for the constructor and the DMA channel), with the hardware
semantics of the register map taken from the spec, section 6: writing a
clear-bit of the interrupt-clear register clears the corresponding status
flag, and reading the receive data register implicitly clears the
data-ready flag.
-/

namespace SerialHAL

/-- Serial error, from `enum Error` in src/serial.rs. -/
inductive Error where
  | Framing
  | Noise
  | Overrun
  | Parity
deriving DecidableEq, Repr

/-- Word length, from `enum WordLength` in src/serial.rs. -/
inductive WordLength where
  | DataBits7
  | DataBits8
  | DataBits9
deriving DecidableEq, Repr

/-- Parity selection, from `enum Parity` in src/serial.rs. -/
inductive Parity where
  | ParityNone
  | ParityEven
  | ParityOdd
deriving DecidableEq, Repr

/-- Stop bit selection, from `enum StopBits` in src/serial.rs. -/
inductive StopBits where
  | STOP1
  | STOP0P5
  | STOP2
  | STOP1P5
deriving DecidableEq, Repr

/-- Frame configuration, from `struct Config` in src/serial.rs.  The baud
rate field `Bps` is a newtype over `u32`; modelled as `Nat`. -/
structure Config where
  baudrate : Nat
  wordlength : WordLength
  parity : Parity
  stopbits : StopBits
deriving DecidableEq, Repr

/-- Default configuration, from `impl Default for Config`: 19200 bps,
8 data bits, no parity, 1 stop bit. -/
def Config.default : Config :=
  { baudrate := 19200
    wordlength := WordLength.DataBits8
    parity := Parity.ParityNone
    stopbits := StopBits.STOP1 }

/-- Result of a non-blocking operation, modelling
`nb::Result<T, Error> = Result<T, nb::Error<Error>>` from the source:
`ok` is `Ok`, `err` is `Err(nb::Error::Other(e))`, and `wouldBlock` is
`Err(nb::Error::WouldBlock)`. -/
inductive NbResult (α : Type) where
  | ok (a : α)
  | err (e : Error)
  | wouldBlock
deriving DecidableEq, Repr

/-- State of one USART peripheral instance as visible to the driver: the
status-register (ISR) flags the driver inspects (PE, FE, NF, ORE, RXNE,
TXE, TC), the receive data register RDR and the transmit data register
TDR (32-bit registers, values taken modulo 2 ^ 32 where written). -/
structure UsartState where
  pe : Bool
  fe : Bool
  nf : Bool
  ore : Bool
  rxne : Bool
  txe : Bool
  tc : Bool
  rdr : Nat
  tdr : Nat
deriving DecidableEq, Repr

/-- Non-blocking read, from `impl hal::serial::Read<u8> for Rx` in
src/serial.rs (lines 429-455): the ISR is read once; the first set flag
in priority order PE, FE, NF, ORE decides the error, and the matching
ICR clear-bit write clears exactly that ISR flag (register-map semantics
of the ICR); else if RXNE is set the low byte of RDR is returned
(`rdr.read().bits() as u8`), the RDR read implicitly clearing RXNE;
else the read would block and the state is untouched. -/
def rxRead (s : UsartState) : NbResult Nat × UsartState :=
  if s.pe then (NbResult.err Error.Parity, { s with pe := false })
  else if s.fe then (NbResult.err Error.Framing, { s with fe := false })
  else if s.nf then (NbResult.err Error.Noise, { s with nf := false })
  else if s.ore then (NbResult.err Error.Overrun, { s with ore := false })
  else if s.rxne then (NbResult.ok (s.rdr % 2 ^ 8), { s with rxne := false })
  else (NbResult.wouldBlock, s)

/-- C1: a single `read()` on the receive handle reports at most one
outcome by fixed priority.  If PE is set it clears only PE and fails with
Parity; else if FE is set it clears only FE and fails with Framing; else
if NF is set it clears only NF and fails with Noise; else if ORE is set
it clears only ORE and fails with Overrun; else if RXNE is set it
returns the received byte; else it would block.  The structure-update
form of each right-hand side states that every other flag and register
is left unchanged, so lower-priority flags stay set for later reads. -/
theorem c1_read_priority (s : UsartState) :
    (s.pe = true →
      rxRead s = (NbResult.err Error.Parity, { s with pe := false })) ∧
    (s.pe = false → s.fe = true →
      rxRead s = (NbResult.err Error.Framing, { s with fe := false })) ∧
    (s.pe = false → s.fe = false → s.nf = true →
      rxRead s = (NbResult.err Error.Noise, { s with nf := false })) ∧
    (s.pe = false → s.fe = false → s.nf = false → s.ore = true →
      rxRead s = (NbResult.err Error.Overrun, { s with ore := false })) ∧
    (s.pe = false → s.fe = false → s.nf = false → s.ore = false →
      s.rxne = true →
      rxRead s = (NbResult.ok (s.rdr % 2 ^ 8), { s with rxne := false })) ∧
    (s.pe = false → s.fe = false → s.nf = false → s.ore = false →
      s.rxne = false →
      rxRead s = (NbResult.wouldBlock, s)) := by
  refine ⟨?_, ?_, ?_, ?_, ?_, ?_⟩ <;> intros <;> simp_all [rxRead]

/-- Witness for C1 at a concrete state with both PE and ORE set: the read
reports Parity and clears only PE, leaving ORE (and RXNE) set. -/
theorem c1_read_priority_witness :
    rxRead ⟨true, false, false, true, true, false, false, 65, 0⟩ =
      (NbResult.err Error.Parity,
        ⟨false, false, false, true, true, false, false, 65, 0⟩) :=
  (c1_read_priority ⟨true, false, false, true, true, false, false, 65, 0⟩).1 rfl

/-- Stop-bits field encoding, from the `match config.stopbits` in the cr2
write of the `uart!` constructor (src/serial.rs lines 277-284):
1 stop bit maps to 0b00, 0.5 to 0b01, 2 to 0b10, 1.5 to 0b11. -/
def stopBitsEncode : StopBits → Nat
  | StopBits.STOP1 => 0b00
  | StopBits.STOP0P5 => 0b01
  | StopBits.STOP2 => 0b10
  | StopBits.STOP1P5 => 0b11

/-- Modelled from the spec: the decode direction of the stop-bits
encoding is absent from the source (the driver only writes the field);
the spec, section 8, fixes it as the inverse of the table
1 to 00, 0.5 to 01, 2 to 10, 1.5 to 11. -/
def stopBitsDecode : Nat → StopBits
  | 0b00 => StopBits.STOP1
  | 0b01 => StopBits.STOP0P5
  | 0b10 => StopBits.STOP2
  | _ => StopBits.STOP1P5

/-- Baud-rate divisor, from `let div = ($clk_mul * clk) / bdr` in the
`uart!` constructor (src/serial.rs line 252): u64 arithmetic, truncating
integer division.  With `clk` a u32 value and `clkMul` at most 256 the
product is below 2 ^ 41, so the u64 multiplication cannot wrap and plain
`Nat` arithmetic is exact. -/
def divisor (clkMul clk bdr : Nat) : Nat :=
  (clkMul * clk) / bdr

/-- Instance-specific oversampling multiplier `$clk_mul` for the
low-power instance, from `uart!(LPUART, lpuart, apbenr1, lpuart1en, 256, ...)`
in src/serial.rs. -/
def lpuartClkMul : Nat := 256

/-- Instance-specific oversampling multiplier `$clk_mul` for USART1,
from `uart!(USART1, usart1, apbenr2, usart1en, 1, ...)` in src/serial.rs. -/
def usart1ClkMul : Nat := 1

/-- Instance-specific oversampling multiplier `$clk_mul` for USART2,
from `uart!(USART2, usart2, apbenr1, usart2en, 1, ...)` in src/serial.rs. -/
def usart2ClkMul : Nat := 1

/-- One register write performed by the `uart!` constructor, in the order
the source issues them: APB clock-enable, BRR write, CR2 reset, CR3
reset, the single CR1 write carrying the enable bits UE/TE/RE together
with the word-length bits M0/M1 and the parity bits PCE/PS, and the CR2
write of the 2-bit stop field. -/
inductive RegWrite where
  | clockEnable
  | brr (v : Nat)
  | cr2Reset
  | cr3Reset
  | cr1 (ue te re m0 m1 pce ps : Bool)
  | cr2Stop (stop : Nat)
deriving DecidableEq, Repr

/-- Constructor of the serial handle, from `Serial::$usartX` in the
`uart!` macro (src/serial.rs lines 234-289), as the ordered trace of
register writes it issues.  Pin setup is delegated to the external pin
capability and not traced.  The BRR value is `div as u32`, i.e. the
divisor modulo 2 ^ 32.  A zero baud rate makes the u64 division panic in
Rust; that is modelled as `none`.  There is no path returning
`Err(InvalidConfig)`: every non-panicking run ends in `Ok`. -/
def construct (clkMul clk : Nat) (cfg : Config) : Option (List RegWrite) :=
  if cfg.baudrate = 0 then none
  else some
    [RegWrite.clockEnable,
     RegWrite.brr (divisor clkMul clk cfg.baudrate % 2 ^ 32),
     RegWrite.cr2Reset,
     RegWrite.cr3Reset,
     RegWrite.cr1 true true true
       (cfg.wordlength == WordLength.DataBits7)
       (cfg.wordlength == WordLength.DataBits9)
       (!(cfg.parity == Parity.ParityNone))
       (cfg.parity == Parity.ParityOdd),
     RegWrite.cr2Stop (stopBitsEncode cfg.stopbits)]

/-- Register writes of a constructor run, with a panic leaving an empty
trace. -/
def constructWrites (clkMul clk : Nat) (cfg : Config) : List RegWrite :=
  (construct clkMul clk cfg).getD []

/-- Value written to the baud-rate register in a trace, if any. -/
def brrValue (tr : List RegWrite) : Option Nat :=
  tr.findSome? fun w =>
    match w with
    | RegWrite.brr v => some v
    | _ => none

/-- C2: the divisor is `(clkMul * clk) / bdr` by truncating integer
division (characterized by the two-sided bound, so no rounding
correction is applied), the multiplier is 256 for the low-power instance
and 1 for the standard ones, the constructor writes exactly this divisor
(reduced to the 32-bit register) to BRR, and at multiplier 1,
clock 8000000, baud 19200 the divisor is 416 while at multiplier 256 it
is 106666. -/
theorem c2_divisor :
    lpuartClkMul = 256 ∧ usart1ClkMul = 1 ∧ usart2ClkMul = 1 ∧
    (∀ m c b, 0 < b →
      b * divisor m c b ≤ m * c ∧ m * c < b * (divisor m c b + 1)) ∧
    (∀ m c cfg, cfg.baudrate ≠ 0 →
      brrValue (constructWrites m c cfg) =
        some (divisor m c cfg.baudrate % 2 ^ 32)) ∧
    divisor 1 8000000 19200 = 416 ∧
    divisor 256 8000000 19200 = 106666 := by
  refine ⟨rfl, rfl, rfl, ?_, ?_, by norm_num [divisor], by norm_num [divisor]⟩
  · intro m c b hb
    constructor
    · rw [divisor, Nat.mul_comm]
      exact Nat.div_mul_le_self (m * c) b
    · exact Nat.lt_mul_div_succ (m * c) hb
  · intro m c cfg h
    simp [constructWrites, construct, brrValue, h]

/-- Witness for C2 at baud rate 19200 (discharging the positivity and
nonzero hypotheses): the truncating bound holds at multiplier 1 and
clock 8000000, and the default configuration makes the constructor write
416 to BRR. -/
theorem c2_divisor_witness :
    (19200 * divisor 1 8000000 19200 ≤ 1 * 8000000 ∧
      1 * 8000000 < 19200 * (divisor 1 8000000 19200 + 1)) ∧
    brrValue (constructWrites 1 8000000 Config.default) =
      some (divisor 1 8000000 19200 % 2 ^ 32) :=
  ⟨c2_divisor.2.2.2.1 1 8000000 19200 (by norm_num),
    c2_divisor.2.2.2.2.1 1 8000000 Config.default (by norm_num [Config.default])⟩

/-- Configuration whose divisor overflows the 32-bit BRR register: baud
rate 1 with the low-power multiplier 256 and a 4 GHz clock gives
divisor 1024000000000, which exceeds 2 ^ 32. -/
def cfgOverflow : Config :=
  { baudrate := 1
    wordlength := WordLength.DataBits8
    parity := Parity.ParityNone
    stopbits := StopBits.STOP1 }

/-- Configuration with a zero baud rate, making the u64 division in the
constructor divide by zero (a Rust panic). -/
def cfgZeroBaud : Config :=
  { baudrate := 0
    wordlength := WordLength.DataBits8
    parity := Parity.ParityNone
    stopbits := StopBits.STOP1 }

/-- Counterexample to C3: at a divisor overflowing the 32-bit register
the constructor still succeeds (it does not return `Err(InvalidConfig)`)
and silently truncates the divisor to its low 32 bits when writing BRR;
and at baud rate zero it panics (modelled `none`) instead of returning
`Err(InvalidConfig)`. -/
theorem c3_counterexample :
    (construct 256 4000000000 cfgOverflow).isSome = true ∧
    brrValue (constructWrites 256 4000000000 cfgOverflow) =
      some (1024000000000 % 2 ^ 32) ∧
    1024000000000 % 2 ^ 32 ≠ 1024000000000 ∧
    construct 256 8000000 cfgZeroBaud = none := by
  refine ⟨by decide, by decide, by decide, by decide⟩

/-- C3 amended: construction never returns `Err(InvalidConfig)`.  For a
nonzero baud rate it always succeeds, writing the divisor reduced modulo
2 ^ 32 to BRR (silent truncation on overflow); for baud rate zero it
panics on the division by zero (modelled as `none`) rather than
reporting an error value. -/
theorem c3_amended (clkMul clk : Nat) (cfg : Config) :
    (cfg.baudrate = 0 → construct clkMul clk cfg = none) ∧
    (cfg.baudrate ≠ 0 →
      (construct clkMul clk cfg).isSome = true ∧
      brrValue (constructWrites clkMul clk cfg) =
        some (divisor clkMul clk cfg.baudrate % 2 ^ 32)) := by
  refine ⟨fun h => by simp [construct, h], fun h => ⟨?_, ?_⟩⟩
  · simp [construct, h]
  · simp [construct, constructWrites, brrValue, h]

/-- Witness for C3 amended at both concrete inputs: the zero-baud
configuration panics and the overflowing configuration succeeds. -/
theorem c3_amended_witness :
    construct 1 8000000 cfgZeroBaud = none ∧
    (construct 256 4000000000 cfgOverflow).isSome = true :=
  ⟨(c3_amended 1 8000000 cfgZeroBaud).1 rfl,
    ((c3_amended 256 4000000000 cfgOverflow).2 (by decide)).1⟩

/-- Register writes that program frame-format fields: the CR1 write
carries the word-length bits M0/M1 and the parity bits PCE/PS, and the
CR2 stop write carries the 2-bit stop field. -/
def isFrameFormatWrite : RegWrite → Bool
  | RegWrite.cr1 _ _ _ _ _ _ _ => true
  | RegWrite.cr2Stop _ => true
  | _ => false

/-- Register writes that set any of the enable bits UE, TE, RE. -/
def setsEnableWrite : RegWrite → Bool
  | RegWrite.cr1 ue te re _ _ _ _ => ue || te || re
  | _ => false

/-- Statement of claim C6 over a register-write trace: every write that
programs a frame-format field occurs strictly before every write that
sets an enable bit. -/
def claimC6Holds (tr : List RegWrite) : Prop :=
  ∀ i j : Fin tr.length,
    isFrameFormatWrite (tr.get i) = true →
    setsEnableWrite (tr.get j) = true →
    (i : Nat) < (j : Nat)

instance decClaimC6Holds (tr : List RegWrite) : Decidable (claimC6Holds tr) := by
  unfold claimC6Holds
  infer_instance

/-- Configuration 19200-8-N with 2 stop bits, a failing input for C6. -/
def cfgStop2 : Config :=
  { baudrate := 19200
    wordlength := WordLength.DataBits8
    parity := Parity.ParityNone
    stopbits := StopBits.STOP2 }

/-- C6 fails on the code: at clock 8 MHz, multiplier 1 and the
configuration 19200-8-N-2, the constructor issues the single CR1 write
that sets UE/TE/RE in the same write that programs the word-length and
parity bits, and only afterwards writes the stop-bits field to CR2 — so
the frame format is not fully programmed before the peripheral is
enabled. -/
theorem c6_format_not_before_enable :
    constructWrites 1 8000000 cfgStop2 =
      [RegWrite.clockEnable, RegWrite.brr 416, RegWrite.cr2Reset,
       RegWrite.cr3Reset,
       RegWrite.cr1 true true true false false false false,
       RegWrite.cr2Stop 2] ∧
    ¬ claimC6Holds (constructWrites 1 8000000 cfgStop2) := by
  refine ⟨by decide, by decide⟩

/-- C9: the stop-bits encoding is injective, takes exactly the four
2-bit values 00, 01, 10, 11 on the four settings 1, 0.5, 2, 1.5, and
the round trip through the decode direction is the identity on the whole
finite set. -/
theorem c9_stopbits :
    (∀ a b : StopBits, stopBitsEncode a = stopBitsEncode b → a = b) ∧
    (∀ sb, stopBitsDecode (stopBitsEncode sb) = sb) ∧
    (∀ sb, stopBitsEncode sb < 4) ∧
    stopBitsEncode StopBits.STOP1 = 0b00 ∧
    stopBitsEncode StopBits.STOP0P5 = 0b01 ∧
    stopBitsEncode StopBits.STOP2 = 0b10 ∧
    stopBitsEncode StopBits.STOP1P5 = 0b11 := by
  refine ⟨?_, ?_, ?_, rfl, rfl, rfl, rfl⟩
  · intro a b
    cases a <;> cases b <;> decide
  · intro sb
    cases sb <;> rfl
  · intro sb
    cases sb <;> decide

/-- Witness for C9, discharging the injectivity hypothesis at a concrete
pair and evaluating the round trip at a concrete setting. -/
theorem c9_stopbits_witness :
    StopBits.STOP2 = StopBits.STOP2 ∧
    stopBitsDecode (stopBitsEncode StopBits.STOP1P5) = StopBits.STOP1P5 :=
  ⟨c9_stopbits.1 StopBits.STOP2 StopBits.STOP2 rfl,
    c9_stopbits.2.1 StopBits.STOP1P5⟩

/-- Non-blocking write, from `impl hal::serial::Write<u8> for Tx` in
src/serial.rs (lines 477-485): if the TXE flag is set the byte is
written to TDR (`byte as u32`, exact for a byte value) and the call
succeeds, otherwise it would block and nothing is written.  The byte
argument models a u8 value. -/
def txWrite (s : UsartState) (byte : Nat) : NbResult Unit × UsartState :=
  if s.txe then (NbResult.ok (), { s with tdr := byte })
  else (NbResult.wouldBlock, s)

/-- Non-blocking flush, from `impl hal::serial::Write<u8> for Tx` in
src/serial.rs (lines 468-475): succeeds exactly when the TC flag is set,
with no register modified either way. -/
def txFlush (s : UsartState) : NbResult Unit :=
  if s.tc then NbResult.ok () else NbResult.wouldBlock

/-- C7: `write(byte)` succeeds, writing exactly the supplied byte to the
transmit data register, precisely when the transmit-ready flag TXE is
set, and otherwise would block leaving the whole state (in particular
TDR) unmodified; `flush()` succeeds precisely when the
transmission-complete flag TC is set and otherwise would block. -/
theorem c7_write_flush (s : UsartState) (byte : Nat) :
    (s.txe = true → txWrite s byte = (NbResult.ok (), { s with tdr := byte })) ∧
    (s.txe = false → txWrite s byte = (NbResult.wouldBlock, s)) ∧
    ((txWrite s byte).1 = NbResult.ok () ↔ s.txe = true) ∧
    (s.tc = true → txFlush s = NbResult.ok ()) ∧
    (s.tc = false → txFlush s = NbResult.wouldBlock) ∧
    (txFlush s = NbResult.ok () ↔ s.tc = true) := by
  refine ⟨?_, ?_, ?_, ?_, ?_, ?_⟩ <;>
    cases h : s.txe <;> cases h2 : s.tc <;> simp_all [txWrite, txFlush]

/-- Witness for C7 at concrete states: with TXE set the byte 65 lands in
TDR; with TXE clear the write would block and the state is unchanged. -/
theorem c7_write_flush_witness :
    txWrite ⟨false, false, false, false, false, true, true, 0, 0⟩ 65 =
      (NbResult.ok (), ⟨false, false, false, false, false, true, true, 0, 65⟩) ∧
    txWrite ⟨false, false, false, false, false, false, false, 0, 7⟩ 65 =
      (NbResult.wouldBlock, ⟨false, false, false, false, false, false, false, 0, 7⟩) ∧
    txFlush ⟨false, false, false, false, false, true, true, 0, 0⟩ =
      NbResult.ok () :=
  ⟨(c7_write_flush ⟨false, false, false, false, false, true, true, 0, 0⟩ 65).1 rfl,
    (c7_write_flush ⟨false, false, false, false, false, false, false, 0, 7⟩ 65).2.1 rfl,
    (c7_write_flush ⟨false, false, false, false, false, true, true, 0, 0⟩ 0).2.2.2.1 rfl⟩

/-- C10: in the data-ready case, `read()` returns the receive data
register reduced modulo 2 ^ 8 — only the low 8 bits (`bits() as u8`), so
a ninth data bit of a 9-bit frame is never observable and the result is
always below 256, for every register value and independently of the
configured word length (which does not appear in the read path). -/
theorem c10_read_truncation (s : UsartState)
    (h1 : s.pe = false) (h2 : s.fe = false) (h3 : s.nf = false)
    (h4 : s.ore = false) (h5 : s.rxne = true) :
    rxRead s = (NbResult.ok (s.rdr % 2 ^ 8), { s with rxne := false }) ∧
    s.rdr % 2 ^ 8 < 256 := by
  constructor
  · simp [rxRead, h1, h2, h3, h4, h5]
  · exact Nat.mod_lt _ (by norm_num)

/-- Witness for C10 at RDR holding 0x1FF (ninth bit set): the read
returns 0xFF, the ninth bit dropped. -/
theorem c10_read_truncation_witness :
    rxRead ⟨false, false, false, false, true, false, false, 511, 0⟩ =
      (NbResult.ok 255, ⟨false, false, false, false, false, false, false, 511, 0⟩) ∧
    (255 : Nat) < 256 :=
  c10_read_truncation ⟨false, false, false, false, true, false, false, 511, 0⟩
    rfl rfl rfl rfl rfl

/-- Result of the formatter entry point, modelling `core::fmt::Result`. -/
inductive FmtResult where
  | ok
  | error
deriving DecidableEq, Repr

/-- Fairness of the transmit-ready signal over poll times: from every
time on, the TXE flag is eventually observed set, so every spin loop of
the blocking writer terminates. -/
def fairTxe (txe : Nat → Bool) : Prop :=
  ∀ t, ∃ n, txe (t + n) = true

/-- First poll time at or after `t` at which TXE reads set: the time at
which the spin-retry loop `block!(self.write(*c))` of `write_str`
(src/serial.rs lines 186-194) exits, given that it exits at all. -/
def readyTime (txe : Nat → Bool) (t : Nat) (h : ∃ n, txe (t + n) = true) : Nat :=
  t + Nat.find h

/-- Blocking string write, from `impl fmt::Write for Tx::write_str` in
src/serial.rs (lines 186-194): for each byte of the string in order,
spin `write` until TXE is observed set (each poll consuming one time
step) and append the byte to the TDR write log; the per-byte results are
consumed by `.last()` and discarded (`let _ = ...`), and the function
returns `Ok(())` unconditionally.  The underlying `write` never produces
an error result (it only succeeds or would-block), so no per-byte error
exists to propagate. -/
def writeStr (txe : Nat → Bool) (hf : fairTxe txe) :
    List Nat → Nat → List Nat → FmtResult × Nat × List Nat
  | [], t, log => (FmtResult.ok, t, log)
  | b :: rest, t, log =>
      writeStr txe hf rest (readyTime txe t (hf t) + 1) (log ++ [b])

/-- C8: the blocking string writer spin-retries each byte until the
write succeeds — the byte is committed at the first ready time, every
earlier poll in its window reading TXE clear — writes all bytes of the
string in order, and always returns Ok to its caller, the per-byte
results being discarded. -/
theorem c8_write_str (txe : Nat → Bool) (hf : fairTxe txe)
    (s : List Nat) (t : Nat) (log : List Nat) :
    (writeStr txe hf s t log).1 = FmtResult.ok ∧
    (writeStr txe hf s t log).2.2 = log ++ s ∧
    (∀ u hu, txe (readyTime txe u hu) = true ∧
      ∀ v, u ≤ v → v < readyTime txe u hu → txe v = false) := by
  refine ⟨?_, ?_, ?_⟩
  · induction s generalizing t log with
    | nil => rfl
    | cons b rest ih => exact ih _ _
  · induction s generalizing t log with
    | nil => simp [writeStr]
    | cons b rest ih => simp [writeStr, ih]
  · intro u hu
    constructor
    · exact Nat.find_spec hu
    · intro v huv hlt
      have hm : v - u < Nat.find hu := by
        unfold readyTime at hlt
        omega
      have := Nat.find_min hu hm
      have hv : u + (v - u) = v := by omega
      rw [hv] at this
      simpa using this

/-- Witness for C8 with the always-ready TXE signal: writing the bytes
72, 105 from time 0 with an empty log returns Ok and logs exactly those
bytes in order. -/
theorem c8_write_str_witness :
    (writeStr (fun _ => true) (fun _ => ⟨0, rfl⟩) [72, 105] 0 []).1 =
      FmtResult.ok ∧
    (writeStr (fun _ => true) (fun _ => ⟨0, rfl⟩) [72, 105] 0 []).2.2 =
      [72, 105] :=
  ⟨(c8_write_str (fun _ => true) (fun _ => ⟨0, rfl⟩) [72, 105] 0 []).1,
    (c8_write_str (fun _ => true) (fun _ => ⟨0, rfl⟩) [72, 105] 0 []).2.1⟩

/-- Transfer direction of a DMA channel, from `TransferDirection` in the
dma module interface used by src/serial.rs. -/
inductive TransferDirection where
  | MemoryToPeriph
  | PeriphToMemory
deriving DecidableEq, Repr

/-- Configuration state of a DMA channel as driven through the
`DmaChannel` setters the serial driver calls: direction, fixed
peripheral-side address with its increment flag, memory-side address
with its increment flag, transfer length, and whether the channel has
been started.  Fields not yet programmed are `none`. -/
structure DmaChannelState where
  direction : Option TransferDirection
  periphAddr : Option Nat
  periphInc : Bool
  memAddr : Option Nat
  memInc : Bool
  transferLength : Option Nat
  started : Bool
deriving DecidableEq, Repr

/-- Peripheral data-register addresses of one USART instance: the
transmit data register TDR and the receive data register RDR. -/
structure UsartAddrs where
  tdr : Nat
  rdr : Nat
deriving DecidableEq, Repr

/-- DMA-bound transmitter, from `struct DmaTx` in src/serial.rs: the
transmit handle fused with the owned channel. -/
structure DmaTx where
  channel : DmaChannelState
deriving DecidableEq, Repr

/-- DMA-bound receiver, from `struct DmaRx` in src/serial.rs: the
receive handle fused with the owned channel. -/
structure DmaRx where
  channel : DmaChannelState
deriving DecidableEq, Repr

/-- Binding of a transmit handle to a DMA channel, from `Tx::with_dma`
in src/serial.rs (lines 321-334): consumes the handle and the channel,
sets the direction to memory-to-peripheral and the fixed peripheral-side
address to the TDR address with increment disabled, and returns the
fused handle. -/
def txWithDma (addrs : UsartAddrs) (ch : DmaChannelState) : DmaTx :=
  { channel :=
      { ch with
        direction := some TransferDirection.MemoryToPeriph
        periphAddr := some addrs.tdr
        periphInc := false } }

/-- Binding of a receive handle to a DMA channel, from `Rx::with_dma`
in src/serial.rs (lines 350-363): consumes the handle and the channel,
sets the direction to peripheral-to-memory and the fixed peripheral-side
address to the RDR address with increment disabled, and returns the
fused handle. -/
def rxWithDma (addrs : UsartAddrs) (ch : DmaChannelState) : DmaRx :=
  { channel :=
      { ch with
        direction := some TransferDirection.PeriphToMemory
        periphAddr := some addrs.rdr
        periphInc := false } }

/-- Owned pinned buffer handed to a DMA transfer, reduced to the two
facts the driver extracts from it: its address and its length. -/
structure Buffer where
  addr : Nat
  len : Nat
deriving DecidableEq, Repr

/-- Operation performed while starting a DMA transfer, in source order:
programming the memory-side address (with its increment flag),
programming the transfer length, the compiler fence with sequentially
consistent ordering, and starting the channel. -/
inductive DmaEvent where
  | setMemoryAddress (addr : Nat) (inc : Bool)
  | setTransferLength (len : Nat)
  | fence
  | start
deriving DecidableEq, Repr

/-- In-flight DMA operation, from `struct Transfer` in the dma module:
owns the buffer and the DMA-bound handle that started it. -/
structure Transfer (H : Type) where
  buffer : Buffer
  channel : H
deriving DecidableEq, Repr

/-- Start of a DMA receive, from `impl ReadDma for DmaRx::read` in
src/serial.rs (lines 378-402): the buffer address and length are
programmed into the channel (memory increment enabled), the fence is
issued, the channel is started, and a Transfer owning the buffer and
the consumed handle is returned, together with the ordered trace of
operations. -/
def dmaRxRead (h : DmaRx) (buf : Buffer) : Transfer DmaRx × List DmaEvent :=
  ({ buffer := buf
     channel :=
       { channel :=
           { h.channel with
             memAddr := some buf.addr
             memInc := true
             transferLength := some buf.len
             started := true } } },
    [DmaEvent.setMemoryAddress buf.addr true,
     DmaEvent.setTransferLength buf.len,
     DmaEvent.fence,
     DmaEvent.start])

/-- Start of a DMA transmit, from `impl WriteDma for DmaTx::write` in
src/serial.rs (lines 404-427): identical protocol to the receive start,
on the transmit-bound channel. -/
def dmaTxWrite (h : DmaTx) (buf : Buffer) : Transfer DmaTx × List DmaEvent :=
  ({ buffer := buf
     channel :=
       { channel :=
           { h.channel with
             memAddr := some buf.addr
             memInc := true
             transferLength := some buf.len
             started := true } } },
    [DmaEvent.setMemoryAddress buf.addr true,
     DmaEvent.setTransferLength buf.len,
     DmaEvent.fence,
     DmaEvent.start])

/-- C4: starting a DMA transfer on either DMA-bound handle programs the
memory-side address with the buffer address and the transfer length with
the buffer length, issues the fence, and only then starts the channel —
the emitted operation trace is exactly that sequence in that order — and
returns a Transfer owning both the buffer and the handle (the handle is
consumed into the Transfer, its channel now marked started, so no second
transfer can be started from it).  The quantification over every buffer
states this for any owned pinned buffer. -/
theorem c4_dma_transfer_start (hrx : DmaRx) (htx : DmaTx) (buf : Buffer) :
    (dmaRxRead hrx buf).2 =
      [DmaEvent.setMemoryAddress buf.addr true,
       DmaEvent.setTransferLength buf.len, DmaEvent.fence, DmaEvent.start] ∧
    (dmaRxRead hrx buf).1.buffer = buf ∧
    (dmaRxRead hrx buf).1.channel.channel.memAddr = some buf.addr ∧
    (dmaRxRead hrx buf).1.channel.channel.transferLength = some buf.len ∧
    (dmaRxRead hrx buf).1.channel.channel.started = true ∧
    (dmaTxWrite htx buf).2 =
      [DmaEvent.setMemoryAddress buf.addr true,
       DmaEvent.setTransferLength buf.len, DmaEvent.fence, DmaEvent.start] ∧
    (dmaTxWrite htx buf).1.buffer = buf ∧
    (dmaTxWrite htx buf).1.channel.channel.memAddr = some buf.addr ∧
    (dmaTxWrite htx buf).1.channel.channel.transferLength = some buf.len ∧
    (dmaTxWrite htx buf).1.channel.channel.started = true := by
  refine ⟨rfl, rfl, rfl, rfl, rfl, rfl, rfl, rfl, rfl, rfl⟩

/-- C5: binding a transmit handle fixes the channel direction to
memory-to-peripheral and the peripheral-side address to the TDR address;
binding a receive handle fixes peripheral-to-memory and the RDR address;
and the only subsequent operation on the bound handle — starting a
transfer — leaves both settings untouched, so they are programmed
exactly once for the handle lifetime. -/
theorem c5_with_dma (addrs : UsartAddrs) (ch : DmaChannelState) (buf : Buffer) :
    (txWithDma addrs ch).channel.direction =
      some TransferDirection.MemoryToPeriph ∧
    (txWithDma addrs ch).channel.periphAddr = some addrs.tdr ∧
    (txWithDma addrs ch).channel.periphInc = false ∧
    (rxWithDma addrs ch).channel.direction =
      some TransferDirection.PeriphToMemory ∧
    (rxWithDma addrs ch).channel.periphAddr = some addrs.rdr ∧
    (rxWithDma addrs ch).channel.periphInc = false ∧
    (dmaTxWrite (txWithDma addrs ch) buf).1.channel.channel.direction =
      (txWithDma addrs ch).channel.direction ∧
    (dmaTxWrite (txWithDma addrs ch) buf).1.channel.channel.periphAddr =
      (txWithDma addrs ch).channel.periphAddr ∧
    (dmaRxRead (rxWithDma addrs ch) buf).1.channel.channel.direction =
      (rxWithDma addrs ch).channel.direction ∧
    (dmaRxRead (rxWithDma addrs ch) buf).1.channel.channel.periphAddr =
      (rxWithDma addrs ch).channel.periphAddr := by
  refine ⟨rfl, rfl, rfl, rfl, rfl, rfl, rfl, rfl, rfl, rfl⟩

end SerialHAL
